import Mathlib

/-!
Shallow embedding of the tyz-actions-access theme deployment routes.

The repository exposes five caller-facing operations over the remote
e-commerce platform's GraphQL admin API: create theme, delete theme,
update (upsert) theme files, poll processing status, and staged file
upload.  Every operation first resolves an offline session for the shop
(`verifyShopSession` in session.server) and then performs at most two
outbound network calls, classifying the outcome into a JSON response.

Modelling conventions:
- JavaScript strings are Lean `String`; `new Date()` / `Date.now()` are a
  single `now : Int` parameter; `session.expires` is `Option Int` (`none`
  when the column is null, which is falsy in JS).
- The Prisma query `db.session.findFirst {where: {shop, isOnline: false},
  orderBy: {expires: "desc"}}` is modelled as a function
  `SessionDb : String → Option Session` giving, for each normalized shop
  key, the first offline session ordered by descending expiry.
- Each `fetch` in the source is modelled by an outcome parameter (what the
  route observes after `await response.json()` / error handling) plus one
  `Event` recorded in an outbound trace, so "no network call happened" is
  expressed as the absence of the corresponding event.
- JS `toLowerCase` is modelled by `Char.toLower` (the sources only feed it
  host names; non-ASCII differences are irrelevant to every claim).
- `JSON.stringify` of the error arrays is modelled field-for-field; the
  escaping of control characters is elided (only quote and backslash are
  escaped), which is exact on every payload appearing in the claims.
-/

namespace TyzAccess

/-- One entry of a GraphQL top-level `errors` array: `{ message }`. -/
structure GraphQLError where
  message : String
deriving DecidableEq, Repr

/-- One field-scoped user error: `{ field: string[], message: string }`. -/
structure UserError where
  field : List String
  message : String
deriving DecidableEq, Repr

/-- JSON string escaping as performed by `JSON.stringify` (quote and
backslash; control-character escapes elided, see module docstring). -/
def jsEscapeChar (c : Char) : String :=
  if c = '\"' then "\\\"" else if c = '\\' then "\\\\" else String.singleton c

def jsEscape (s : String) : String :=
  String.join (s.data.map jsEscapeChar)

def jsonStr (s : String) : String :=
  "\"" ++ jsEscape s ++ "\""

def jsonStrList (l : List String) : String :=
  "[" ++ String.intercalate "," (l.map jsonStr) ++ "]"

/-- `JSON.stringify` of one user error object. -/
def jsonUserError (e : UserError) : String :=
  "\x7b\"field\":" ++ jsonStrList e.field ++ ",\"message\":" ++ jsonStr e.message ++ "\x7d"

/-- `JSON.stringify` of a `userErrors` array, as used in the summary
strings built by the routes. -/
def jsonUserErrors (es : List UserError) : String :=
  "[" ++ String.intercalate "," (es.map jsonUserError) ++ "]"

/-- `JSON.stringify` of a top-level `errors` array. -/
def jsonGraphQLError (e : GraphQLError) : String :=
  "\x7b\"message\":" ++ jsonStr e.message ++ "\x7d"

def jsonGraphQLErrors (es : List GraphQLError) : String :=
  "[" ++ String.intercalate "," (es.map jsonGraphQLError) ++ "]"

/-- `data.errors?.[0]?.message || "GraphQL request failed"`: JS falsy-or,
so an empty first message also falls back to the default. -/
def gqlErrorsMessage (errors : Option (List GraphQLError)) : String :=
  match errors with
  | some (e :: _) => if e.message = "" then "GraphQL request failed" else e.message
  | _ => "GraphQL request failed"

/-- `err instanceof Error ? err.message : "Unknown error"`. -/
def exnMessage (m : Option String) : String :=
  m.getD "Unknown error"

/-- Boolean test that a pattern list of characters starts the given list;
models the anchored regex match `/^.../` used by the shop normalizer. -/
def listStarts : List Char → List Char → Bool
  | [], _ => true
  | _ :: _, [] => false
  | a :: as, b :: bs => a == b && listStarts as bs

/-- Character-list body of `normalizeShopDomain`:
`shop.replace(/^https?:\/\//, "").replace(/\/$/, "").toLowerCase()`.
The regex alternation strips `https://` (greedy `s?`) else `http://`; the
second regex strips one trailing slash; the match is case-sensitive. -/
def normalizeShopDomainList (cs : List Char) : List Char :=
  let s1 := if listStarts "https://".data cs then cs.drop 8
            else if listStarts "http://".data cs then cs.drop 7
            else cs
  let s2 := if s1.getLast? = some '/' then s1.dropLast else s1
  s2.map Char.toLower

/-- `normalizeShopDomain` from session.server. -/
def normalizeShopDomain (shop : String) : String :=
  ⟨normalizeShopDomainList shop.data⟩

/-- Lowercasing of a whole string, used to state canonicalization. -/
def strLower (s : String) : String :=
  ⟨s.data.map Char.toLower⟩

/-- The offline session row read from the database. -/
structure Session where
  shop : String
  accessToken : String
  expires : Option Int
deriving DecidableEq, Repr

/-- Result of the Prisma `findFirst` for each normalized shop key. -/
abbrev SessionDb := String → Option Session

structure SessionData where
  shop : String
  accessToken : String
  normalizedShop : String
deriving DecidableEq, Repr

inductive SessionVerificationResult where
  | success (session : SessionData)
  | failure (error : String) (status : Nat)
deriving DecidableEq, Repr

/-- `session.expires && session.expires < new Date()` (a Date is always
truthy, so the conjunct is "the column is non-null"). -/
def sessionExpired (session : Session) (now : Int) : Bool :=
  match session.expires with
  | some e => decide (e < now)
  | none => false

/-- `verifyShopSession` from session.server. -/
def verifyShopSession (db : SessionDb) (now : Int) (shop : String) :
    SessionVerificationResult :=
  let normalizedShop := normalizeShopDomain shop
  match db normalizedShop with
  | none => .failure "No session found for shop. Please install the app first." 404
  | some session =>
    if sessionExpired session now then
      .failure "Session expired. Please reinstall the app." 401
    else
      .success ⟨session.shop, session.accessToken, normalizedShop⟩

/-- `apiVersion` is imported from shopify.server, which is outside the
analyzed sources; it is an arbitrary configuration constant whose value no
claim depends on. -/
def apiVersion : String := "2025-01"

/-- `https://${normalizedShop}/admin/api/${apiVersion}/graphql.json`. -/
def graphqlUrl (normalizedShop : String) : String :=
  "https://" ++ normalizedShop ++ "/admin/api/" ++ apiVersion ++ "/graphql.json"

/-- What a route observes from one GraphQL `fetch`: either the fetch (or
`response.json()`) threw, or it resolved with `response.ok`,
`response.status` and the parsed payload. -/
inductive FetchOutcome (α : Type) where
  | exn (message : Option String)
  | reply (ok : Bool) (status : Nat) (payload : α)
deriving DecidableEq, Repr

/-- An HTTP response produced by a route: status plus JSON body. -/
structure HttpResponse (β : Type) where
  status : Nat
  body : β
deriving DecidableEq, Repr

/-- One `{name, value}` pair of `stagedTarget.parameters`. -/
structure FormParam where
  name : String
  value : String
deriving DecidableEq, Repr

/-- One staged target from `stagedUploadsCreate`. -/
structure StagedTarget where
  resourceUrl : String
  url : String
  parameters : List FormParam
deriving DecidableEq, Repr

/-- A field appended to the multipart `FormData`: either a plain
string parameter or the binary blob (`formData.append("file", blob,
filename)`, blob built with the request mime type). -/
inductive FormField where
  | param (name value : String)
  | filePart (name : String) (payload : List Nat) (filename : String) (mimeType : String)
deriving DecidableEq, Repr

/-- The variables object of the `stagedUploadsCreate` mutation. -/
structure StagedUploadInput where
  filename : String
  mimeType : String
  fileSize : String
  resource : String
  httpMethod : String
deriving DecidableEq, Repr

/-- File entry sent to `themeFilesUpsert`:
`{filename, body: {type, value}}`. -/
structure FileBodyInput where
  type : String
  value : Option String
deriving DecidableEq, Repr

structure FileUpsertInput where
  filename : String
  body : FileBodyInput
deriving DecidableEq, Repr

/-- Outbound side effects of a route invocation, in order: the session
database lookup and every network call to the platform. -/
inductive Event where
  | dbLookup (normalizedShop : String)
  | gqlCreate (url token name source : String)
  | gqlDelete (url token id : String)
  | gqlUpsert (url token themeId : String) (files : List FileUpsertInput)
  | gqlStatus (url token id : String)
  | gqlStage (url token : String) (input : StagedUploadInput)
  | binaryPost (url : String) (form : List FormField)
deriving DecidableEq, Repr

/-! ## Theme create (api.theme.create.ts) -/

structure Theme where
  id : String
  name : String
deriving DecidableEq, Repr

structure ThemeCreatePayload where
  theme : Option Theme
  userErrors : List UserError
deriving DecidableEq, Repr

structure ThemeCreateData where
  themeCreate : Option ThemeCreatePayload
deriving DecidableEq, Repr

structure ThemeCreateGraphQLResponse where
  data : Option ThemeCreateData
  errors : Option (List GraphQLError)
deriving DecidableEq, Repr

/-- JSON body produced by the create-theme route (absent keys are
`none`). -/
structure ThemeCreateBody where
  theme : Option Theme
  userErrors : Option (List UserError)
  error : Option String
deriving DecidableEq, Repr

/-- `createTheme` from api.theme.create.ts: verify the session, send the
`themeCreate` mutation, classify the outcome. -/
def createTheme (db : SessionDb) (now : Int) (shop source name : String)
    (remote : FetchOutcome ThemeCreateGraphQLResponse) :
    HttpResponse ThemeCreateBody × List Event :=
  match verifyShopSession db now shop with
  | .failure err status =>
    (⟨status, ⟨none, none, some err⟩⟩, [.dbLookup (normalizeShopDomain shop)])
  | .success session =>
    let url := graphqlUrl session.normalizedShop
    let ev := [Event.dbLookup (normalizeShopDomain shop),
               Event.gqlCreate url session.accessToken name source]
    match remote with
    | .exn m => (⟨500, ⟨none, none, some (exnMessage m)⟩⟩, ev)
    | .reply ok status payload =>
      if !ok then
        (⟨status, ⟨none, none, some (gqlErrorsMessage payload.errors)⟩⟩, ev)
      else
        match payload.data.bind (·.themeCreate) with
        | none => (⟨500, ⟨none, none, some "themeCreate missing in response"⟩⟩, ev)
        | some themeCreate =>
          if themeCreate.userErrors.length > 0 then
            (⟨400, ⟨none, some themeCreate.userErrors,
                    some ("Failed to create theme: " ++ jsonUserErrors themeCreate.userErrors)⟩⟩, ev)
          else
            (⟨200, ⟨themeCreate.theme, none, none⟩⟩, ev)

/-! ## Theme delete (first file of src/unnamed/part_000) -/

structure ThemeDeletePayload where
  deletedThemeId : Option String
  userErrors : List UserError
deriving DecidableEq, Repr

structure ThemeDeleteData where
  themeDelete : Option ThemeDeletePayload
deriving DecidableEq, Repr

structure ThemeDeleteGraphQLResponse where
  data : Option ThemeDeleteData
  errors : Option (List GraphQLError)
deriving DecidableEq, Repr

structure ThemeDeleteBody where
  deletedThemeId : Option String
  userErrors : Option (List UserError)
  error : Option String
deriving DecidableEq, Repr

/-- `deleteTheme`: verify the session, send the `themeDelete` mutation
with `id = gid://shopify/OnlineStoreTheme/<themeId>`, classify. -/
def deleteTheme (db : SessionDb) (now : Int) (shop themeId : String)
    (remote : FetchOutcome ThemeDeleteGraphQLResponse) :
    HttpResponse ThemeDeleteBody × List Event :=
  match verifyShopSession db now shop with
  | .failure err status =>
    (⟨status, ⟨none, none, some err⟩⟩, [.dbLookup (normalizeShopDomain shop)])
  | .success session =>
    let url := graphqlUrl session.normalizedShop
    let ev := [Event.dbLookup (normalizeShopDomain shop),
               Event.gqlDelete url session.accessToken
                 ("gid://shopify/OnlineStoreTheme/" ++ themeId)]
    match remote with
    | .exn m => (⟨500, ⟨none, none, some (exnMessage m)⟩⟩, ev)
    | .reply ok status payload =>
      if !ok then
        (⟨status, ⟨none, none, some (gqlErrorsMessage payload.errors)⟩⟩, ev)
      else
        match payload.data.bind (·.themeDelete) with
        | none => (⟨500, ⟨none, none, some "themeDelete missing in response"⟩⟩, ev)
        | some themeDelete =>
          if themeDelete.userErrors.length > 0 then
            (⟨400, ⟨none, some themeDelete.userErrors,
                    some ("Failed to delete theme: " ++ jsonUserErrors themeDelete.userErrors)⟩⟩, ev)
          else
            (⟨200, ⟨themeDelete.deletedThemeId, none, none⟩⟩, ev)

/-! ## Theme files upsert (api.theme.update.ts) -/

/-- One entry of the caller's `files` array; `content : Option String`
models a possibly-undefined `content` property, `encoding` is the
optional `"base64"` tag. -/
structure ThemeFileInput where
  filename : String
  content : Option String
  encoding : Option String
deriving DecidableEq, Repr

/-- The caller's `files` value as the route sees it after JSON parsing:
a falsy value, some truthy non-array value, or an actual array. -/
inductive FilesValue where
  | missing
  | truthyNonArray
  | arr (files : List ThemeFileInput)
deriving DecidableEq, Repr

def filesFalsy : FilesValue → Bool
  | .missing => true
  | _ => false

structure UpsertPayload where
  upsertedThemeFiles : Option (List String)
  userErrors : List UserError
deriving DecidableEq, Repr

structure UpsertData where
  themeFilesUpsert : Option UpsertPayload
deriving DecidableEq, Repr

structure UpsertGraphQLResponse where
  data : Option UpsertData
  errors : Option (List GraphQLError)
deriving DecidableEq, Repr

/-- JSON body of the update route; `upsertedFiles` entries are modelled
by their `filename` (the route re-wraps each one as `{filename}`). -/
structure ThemeUpdateBody where
  upsertedFiles : Option (List String)
  userErrors : Option (List UserError)
  error : Option String
deriving DecidableEq, Repr

/-- `updateThemeFiles` from api.theme.update.ts (the part after the
action-level input validation). -/
def updateThemeFiles (db : SessionDb) (now : Int) (shop themeId : String)
    (files : List ThemeFileInput)
    (remote : FetchOutcome UpsertGraphQLResponse) :
    HttpResponse ThemeUpdateBody × List Event :=
  match verifyShopSession db now shop with
  | .failure err status =>
    (⟨status, ⟨none, none, some err⟩⟩, [.dbLookup (normalizeShopDomain shop)])
  | .success session =>
    let url := graphqlUrl session.normalizedShop
    let filesInput := files.map fun file =>
      FileUpsertInput.mk file.filename
        ⟨if file.encoding == some "base64" then "BASE64" else "TEXT", file.content⟩
    let ev := [Event.dbLookup (normalizeShopDomain shop),
               Event.gqlUpsert url session.accessToken
                 ("gid://shopify/OnlineStoreTheme/" ++ themeId) filesInput]
    match remote with
    | .exn m => (⟨500, ⟨none, none, some (exnMessage m)⟩⟩, ev)
    | .reply ok status payload =>
      if !ok then
        (⟨status, ⟨none, none, some (gqlErrorsMessage payload.errors)⟩⟩, ev)
      else
        match payload.data.bind (·.themeFilesUpsert) with
        | none => (⟨500, ⟨none, none, some "themeFilesUpsert missing in response"⟩⟩, ev)
        | some themeFilesUpsert =>
          if themeFilesUpsert.userErrors.length > 0 then
            (⟨400, ⟨none, some themeFilesUpsert.userErrors,
                    some ("Failed to update theme files: " ++ jsonUserErrors themeFilesUpsert.userErrors)⟩⟩, ev)
          else
            (⟨200, ⟨themeFilesUpsert.upsertedThemeFiles, none, none⟩⟩, ev)

/-- `!file.filename || file.content === undefined` for one entry of the
per-file validation loop (an empty filename is falsy). -/
def fileInputBad (f : ThemeFileInput) : Bool :=
  f.filename == "" || f.content.isNone

/-- The `action` of api.theme.update.ts from the field checks on: missing
fields, non-array or empty `files`, per-file validation (the loop returns
the same response for every invalid entry), then `updateThemeFiles`.
Absent `shop`/`themeId` are modelled by `""` (both are falsy and take the
same branch). -/
def themeUpdateAction (db : SessionDb) (now : Int) (shop themeId : String)
    (files : FilesValue)
    (remote : FetchOutcome UpsertGraphQLResponse) :
    HttpResponse ThemeUpdateBody × List Event :=
  if shop == "" || themeId == "" || filesFalsy files then
    (⟨400, ⟨none, none, some "Missing required fields: shop, themeId, and files"⟩⟩, [])
  else
    match files with
    | .missing =>
      (⟨400, ⟨none, none, some "Missing required fields: shop, themeId, and files"⟩⟩, [])
    | .truthyNonArray =>
      (⟨400, ⟨none, none, some "files must be a non-empty array"⟩⟩, [])
    | .arr [] =>
      (⟨400, ⟨none, none, some "files must be a non-empty array"⟩⟩, [])
    | .arr fs =>
      if fs.any fileInputBad then
        (⟨400, ⟨none, none, some "Each file must have \x27filename\x27 and \x27content\x27 fields"⟩⟩, [])
      else
        updateThemeFiles db now shop themeId fs remote

/-! ## Theme processing status (src/unnamed/part_001, refactored; and the
legacy near-duplicate in src/unnamed/part_000) -/

structure ThemeField where
  processing : Option Bool
deriving DecidableEq, Repr

structure StatusData where
  theme : Option ThemeField
deriving DecidableEq, Repr

structure StatusGraphQLResponse where
  data : Option StatusData
  errors : Option (List GraphQLError)
deriving DecidableEq, Repr

/-- JSON body of the status route: `{processing: boolean|null, error?}`. -/
structure ThemeStatusBody where
  processing : Option Bool
  error : Option String
deriving DecidableEq, Repr

/-- `getThemeStatus` from src/unnamed/part_001: delegates session
resolution to `verifyShopSession`, queries `theme(id:){processing}`, and
maps `data.data?.theme?.processing ?? null` in the success branch. -/
def getThemeStatus (db : SessionDb) (now : Int) (themeId shop : String)
    (remote : FetchOutcome StatusGraphQLResponse) :
    HttpResponse ThemeStatusBody × List Event :=
  match verifyShopSession db now shop with
  | .failure err status =>
    (⟨status, ⟨none, some err⟩⟩, [.dbLookup (normalizeShopDomain shop)])
  | .success session =>
    let url := graphqlUrl session.normalizedShop
    let ev := [Event.dbLookup (normalizeShopDomain shop),
               Event.gqlStatus url session.accessToken
                 ("gid://shopify/OnlineStoreTheme/" ++ themeId)]
    match remote with
    | .exn m => (⟨500, ⟨none, some (exnMessage m)⟩⟩, ev)
    | .reply ok status payload =>
      if !ok then
        (⟨status, ⟨none, some (gqlErrorsMessage payload.errors)⟩⟩, ev)
      else
        (⟨200, ⟨(payload.data.bind (·.theme)).bind (·.processing), none⟩⟩, ev)

/-- The legacy `getThemeStatus` (second file of src/unnamed/part_000): it
inlines the identical replace-chain normalization, database query and
expiry check instead of calling `verifyShopSession`. -/
def getThemeStatusLegacy (db : SessionDb) (now : Int) (themeId shop : String)
    (remote : FetchOutcome StatusGraphQLResponse) :
    HttpResponse ThemeStatusBody × List Event :=
  let normalizedShop := normalizeShopDomain shop
  match db normalizedShop with
  | none =>
    (⟨404, ⟨none, some "No session found for shop. Please install the app first."⟩⟩,
     [.dbLookup normalizedShop])
  | some session =>
    if sessionExpired session now then
      (⟨401, ⟨none, some "Session expired. Please reinstall the app."⟩⟩,
       [.dbLookup normalizedShop])
    else
      let url := graphqlUrl normalizedShop
      let ev := [Event.dbLookup normalizedShop,
                 Event.gqlStatus url session.accessToken
                   ("gid://shopify/OnlineStoreTheme/" ++ themeId)]
      match remote with
      | .exn m => (⟨500, ⟨none, some (exnMessage m)⟩⟩, ev)
      | .reply ok status payload =>
        if !ok then
          (⟨status, ⟨none, some (gqlErrorsMessage payload.errors)⟩⟩, ev)
        else
          (⟨200, ⟨(payload.data.bind (·.theme)).bind (·.processing), none⟩⟩, ev)

/-! ## Staged file upload (api.file.upload.ts) -/

/-- Base64 value of one character, `none` for characters outside the
alphabet (Node's decoder skips them, including `=` padding). -/
def base64DecodeChar (c : Char) : Option Nat :=
  if 'A' ≤ c ∧ c ≤ 'Z' then some (c.toNat - 65)
  else if 'a' ≤ c ∧ c ≤ 'z' then some (c.toNat - 97 + 26)
  else if '0' ≤ c ∧ c ≤ '9' then some (c.toNat - 48 + 52)
  else if c = '+' then some 62
  else if c = '/' then some 63
  else none

/-- Pack a list of sextets into bytes (4 sextets to 3 bytes, a final pair
to 1 byte, a final triple to 2 bytes). -/
def base64Pack : List Nat → List Nat
  | [a, b] => [a * 4 + b / 16]
  | [a, b, c] => [a * 4 + b / 16, (b % 16) * 16 + c / 4]
  | a :: b :: c :: d :: rest =>
    (a * 4 + b / 16) :: ((b % 16) * 16 + c / 4) :: ((c % 4) * 64 + d) :: base64Pack rest
  | _ => []

/-- `Buffer.from(s, "base64")` on the inputs this code meets: decode the
alphabet characters, ignore everything else. -/
def base64Decode (s : String) : List Nat :=
  base64Pack (s.data.filterMap base64DecodeChar)

/-- Characters of the first line (the `.` of the data-URL regex does not
match line terminators). -/
def firstLine (cs : List Char) : List Char :=
  cs.takeWhile (fun c => c ≠ '\n' ∧ c ≠ '\r')

/-- Index of the last comma, if any. -/
def lastCommaIdx : List Char → Option Nat
  | [] => none
  | c :: rest =>
    match lastCommaIdx rest with
    | some i => some (i + 1)
    | none => if c = ',' then some 0 else none

/-- `fileData.replace(/^data:.*,/, "")`: when the string starts with
`data:`, the greedy `.*` consumes up to the last comma of the first line
(there is no comma inside the literal `data:` itself). -/
def stripDataUrl (s : String) : String :=
  if listStarts "data:".data s.data then
    match lastCommaIdx (firstLine s.data) with
    | some i => ⟨s.data.drop (i + 1)⟩
    | none => s
  else s

/-- `filename || ` `` `theme-${Date.now()}.zip` `` (JS falsy-or: an empty
provided filename also falls back to the generated default). -/
def finalFilenameOf (filename : Option String) (now : Int) : String :=
  match filename with
  | some f => if f = "" then "theme-" ++ toString now ++ ".zip" else f
  | none => "theme-" ++ toString now ++ ".zip"

/-- The destructuring default `mimeType = "application/zip"` (applied
only when the property is undefined). -/
def mimeTypeOf (mimeType : Option String) : String :=
  mimeType.getD "application/zip"

structure StagedUploadsCreatePayload where
  stagedTargets : List StagedTarget
  userErrors : List UserError
deriving DecidableEq, Repr

structure StagedUploadData where
  stagedUploadsCreate : Option StagedUploadsCreatePayload
deriving DecidableEq, Repr

structure StagedUploadResponse where
  data : Option StagedUploadData
  errors : Option (List GraphQLError)
deriving DecidableEq, Repr

/-- Outcome of the staging `fetch`: thrown, HTTP-unsuccessful (the route
reads `status`, `statusText` and the body text, with a `""` fallback), or
HTTP-successful with the parsed payload. -/
inductive StageOutcome where
  | exn (message : Option String)
  | notOk (status : Nat) (statusText : String) (text : String)
  | ok (payload : StagedUploadResponse)
deriving DecidableEq, Repr

/-- Outcome of the binary `fetch` to the staged upload URL. -/
inductive BinOutcome where
  | exn (message : Option String)
  | reply (ok : Bool) (status : Nat) (statusText : String) (text : String)
deriving DecidableEq, Repr

/-- JSON body of the upload route: `{resourceUrl: string|null, error?}`. -/
structure FileUploadBody where
  resourceUrl : Option String
  error : Option String
deriving DecidableEq, Repr

/-- `uploadFile` from api.file.upload.ts: verify the session, decode the
base64 payload (the `try` around `Buffer.from` is dead code for string
input and is elided), request one staged target, then POST the multipart
form — parameters in order, the blob last under the fixed name `"file"` —
and return the target's `resourceUrl`.  All `throw new Error(...)` sites
land in the surrounding `catch`, which answers 500 with the thrown
message. -/
def uploadFile (db : SessionDb) (now : Int) (shop fileData : String)
    (filename mimeType : Option String)
    (stage : StageOutcome) (bin : BinOutcome) :
    HttpResponse FileUploadBody × List Event :=
  match verifyShopSession db now shop with
  | .failure err status =>
    (⟨status, ⟨none, some err⟩⟩, [.dbLookup (normalizeShopDomain shop)])
  | .success session =>
    let url := graphqlUrl session.normalizedShop
    let archiveBuffer := base64Decode (stripDataUrl fileData)
    let finalFilename := finalFilenameOf filename now
    let mt := mimeTypeOf mimeType
    let stageInput : StagedUploadInput :=
      ⟨finalFilename, mt, toString archiveBuffer.length, "FILE", "POST"⟩
    let ev0 := [Event.dbLookup (normalizeShopDomain shop),
                Event.gqlStage url session.accessToken stageInput]
    match stage with
    | .exn m => (⟨500, ⟨none, some (exnMessage m)⟩⟩, ev0)
    | .notOk status statusText text =>
      (⟨500, ⟨none, some ("stagedUploadsCreate failed: " ++ toString status ++ " "
                          ++ statusText ++ " " ++ text)⟩⟩, ev0)
    | .ok payload =>
      match payload.errors with
      | some (e :: es) =>
        (⟨500, ⟨none, some ("Failed to create staged upload (top-level errors): "
                            ++ jsonGraphQLErrors (e :: es))⟩⟩, ev0)
      | _ =>
        match payload.data.bind (·.stagedUploadsCreate) with
        | none => (⟨500, ⟨none, some "stagedUploadsCreate missing in response"⟩⟩, ev0)
        | some stagedCreate =>
          if stagedCreate.userErrors.length > 0 then
            (⟨500, ⟨none, some ("Failed to create staged upload: "
                                ++ jsonUserErrors stagedCreate.userErrors)⟩⟩, ev0)
          else
            match stagedCreate.stagedTargets.head? with
            | none =>
              (⟨500, ⟨none, some "Failed to get staged upload target"⟩⟩, ev0)
            | some stagedTarget =>
              let form := stagedTarget.parameters.map
                            (fun p => FormField.param p.name p.value)
                          ++ [FormField.filePart "file" archiveBuffer finalFilename mt]
              let ev1 := ev0 ++ [Event.binaryPost stagedTarget.url form]
              match bin with
              | .exn m => (⟨500, ⟨none, some (exnMessage m)⟩⟩, ev1)
              | .reply ok status statusText text =>
                if !ok then
                  (⟨500, ⟨none, some ("Failed to upload file to staged upload URL: "
                                      ++ toString status ++ " " ++ statusText ++ " - "
                                      ++ text)⟩⟩, ev1)
                else
                  (⟨200, ⟨some stagedTarget.resourceUrl, none⟩⟩, ev1)

/-! ## Spec-side predicates and concrete fixtures -/

/-- The caller's `files` value is not a non-empty array, or some entry
lacks a non-empty `filename` or has undefined `content` (the input shapes
rejected by the update action's validation, per the spec). -/
def filesInvalid : FilesValue → Prop
  | .missing => True
  | .truthyNonArray => True
  | .arr fs => fs = [] ∨ ∃ f ∈ fs, f.filename = "" ∨ f.content = none

/-- A store with a valid (never-expiring) offline session. -/
def testSession : Session := ⟨"example.myshopify.com", "token123", none⟩

def testDb : SessionDb :=
  fun s => if s = "example.myshopify.com" then some testSession else none

/-- A store whose only offline session expired at time 5. -/
def expiredDb : SessionDb :=
  fun s => if s = "example.myshopify.com" then
    some ⟨"example.myshopify.com", "token123", some 5⟩ else none

/-- A credential store with no sessions at all. -/
def emptyDb : SessionDb := fun _ => none

/-- A staged target used in concrete runs. -/
def testTarget : StagedTarget :=
  ⟨"https://cdn.example/res-1", "https://upload.example/bucket",
   [⟨"key", "tmp/1"⟩, ⟨"policy", "abc"⟩]⟩

/-! ## Helper lemmas -/

theorem string_data_append (s t : String) : (s ++ t).data = s.data ++ t.data := by
  cases s; cases t; rfl

theorem listStarts_mem {p cs : List Char} (h : listStarts p cs = true) :
    ∀ x ∈ p, x ∈ cs := by
  induction p generalizing cs with
  | nil => intro x hx; cases hx
  | cons a as ih =>
    cases cs with
    | nil => simp [listStarts] at h
    | cons b bs =>
      simp only [listStarts, Bool.and_eq_true, beq_iff_eq] at h
      intro x hx
      rcases List.mem_cons.mp hx with rfl | hx
      · exact h.1 ▸ List.mem_cons_self _ _
      · exact List.mem_cons_of_mem _ (ih h.2 x hx)

theorem listStarts_eq_false {p cs : List Char} {x : Char}
    (hxp : x ∈ p) (hxcs : x ∉ cs) : listStarts p cs = false := by
  cases h : listStarts p cs with
  | false => rfl
  | true => exact absurd (listStarts_mem h x hxp) hxcs

/-- Stripping one trailing slash then lowercasing, on a host with no
slash, yields the lowercase host whether or not a slash was appended. -/
theorem stripTail_map {h : List Char} (hs : '/' ∉ h) {sl : List Char}
    (hsl : sl = [] ∨ sl = ['/']) :
    ((if (h ++ sl).getLast? = some '/' then (h ++ sl).dropLast else h ++ sl).map
      Char.toLower) = h.map Char.toLower := by
  rcases hsl with rfl | rfl
  · rw [List.append_nil]
    rw [if_neg]
    intro hlast
    exact hs (List.mem_of_mem_getLast? (by rw [hlast]; exact rfl))
  · simp

theorem normList_bare {h sl : List Char} (hc : ':' ∉ h) (hs : '/' ∉ h)
    (hsl : sl = [] ∨ sl = ['/']) :
    normalizeShopDomainList (h ++ sl) = h.map Char.toLower := by
  have hmem : ':' ∉ h ++ sl := by
    rcases hsl with rfl | rfl
    · simpa using hc
    · simp [hc]
  unfold normalizeShopDomainList
  rw [listStarts_eq_false (x := ':') (by decide) hmem,
      listStarts_eq_false (x := ':') (by decide) hmem]
  simp only [if_false]
  exact stripTail_map hs hsl

theorem normList_http {h sl : List Char} (hs : '/' ∉ h)
    (hsl : sl = [] ∨ sl = ['/']) :
    normalizeShopDomainList ("http://".data ++ h ++ sl) = h.map Char.toLower := by
  have h1 : listStarts "https://".data ("http://".data ++ (h ++ sl)) = false := rfl
  have h2 : listStarts "http://".data ("http://".data ++ (h ++ sl)) = true := rfl
  have h3 : ("http://".data ++ (h ++ sl)).drop 7 = h ++ sl := rfl
  unfold normalizeShopDomainList
  rw [List.append_assoc, h1, h2]
  simp only [if_false, if_true, h3]
  exact stripTail_map hs hsl

theorem normList_https {h sl : List Char} (hs : '/' ∉ h)
    (hsl : sl = [] ∨ sl = ['/']) :
    normalizeShopDomainList ("https://".data ++ h ++ sl) = h.map Char.toLower := by
  have h1 : listStarts "https://".data ("https://".data ++ (h ++ sl)) = true := rfl
  have h3 : ("https://".data ++ (h ++ sl)).drop 8 = h ++ sl := rfl
  unfold normalizeShopDomainList
  rw [List.append_assoc, h1]
  simp only [if_true, h3]
  exact stripTail_map hs hsl

/-- The fixed empty-target failure message never coincides with a message
produced by serializing a staging `userErrors` list. -/
theorem stagedTargetMsgNe (s : String) :
    "Failed to get staged upload target" ≠ "Failed to create staged upload: " ++ s := by
  cases s with
  | mk l =>
    intro h
    have h10 := congrArg (fun t => t.data.get? 10) h
    exact (by decide : (some 'g' : Option Char) ≠ some 'c') h10

/-! ## Claim theorems -/

/-- Claim C7, counterexample: the references `HTTP://Example.com` and
`http://Example.com` differ only by letter case (and from the bare host
`Example.com` only by an optional leading scheme), yet they normalize to
different strings, because the scheme-stripping regex is case-sensitive:
the uppercase scheme is not stripped and survives (lowercased) in the
output, which is then not the bare host. -/
theorem normalizeShopDomain_scheme_case_sensitive :
    normalizeShopDomain "HTTP://Example.com" = "http://example.com"
    ∧ normalizeShopDomain "http://Example.com" = "example.com"
    ∧ normalizeShopDomain "HTTP://Example.com" ≠ normalizeShopDomain "http://Example.com" := by
  refine ⟨?_, ?_, ?_⟩ <;> decide

/-- Claim C7, amended: for store references built as `scheme ++ host ++
slash` where the scheme is absent or exactly the lowercase literal
`http://` or `https://`, the trailing slash is absent or a single `/`,
and the host is a bare host (no `:` and no `/` characters),
`normalizeShopDomain` returns the lowercase host; hence any two such
references whose hosts agree up to letter case resolve to the same
normalized identifier, so the credential lookup queries the same key. -/
theorem normalizeShopDomain_canonicalizes :
    (∀ scheme host slash : String,
       (scheme = "" ∨ scheme = "http://" ∨ scheme = "https://") →
       (slash = "" ∨ slash = "/") →
       ':' ∉ host.data → '/' ∉ host.data →
       normalizeShopDomain (scheme ++ host ++ slash) = strLower host)
    ∧ (∀ schemeA hostA slashA schemeB hostB slashB : String,
       (schemeA = "" ∨ schemeA = "http://" ∨ schemeA = "https://") →
       (slashA = "" ∨ slashA = "/") →
       ':' ∉ hostA.data → '/' ∉ hostA.data →
       (schemeB = "" ∨ schemeB = "http://" ∨ schemeB = "https://") →
       (slashB = "" ∨ slashB = "/") →
       ':' ∉ hostB.data → '/' ∉ hostB.data →
       strLower hostA = strLower hostB →
       normalizeShopDomain (schemeA ++ hostA ++ slashA) =
         normalizeShopDomain (schemeB ++ hostB ++ slashB)) := by
  have main : ∀ scheme host slash : String,
      (scheme = "" ∨ scheme = "http://" ∨ scheme = "https://") →
      (slash = "" ∨ slash = "/") →
      ':' ∉ host.data → '/' ∉ host.data →
      normalizeShopDomain (scheme ++ host ++ slash) = strLower host := by
    intro scheme host slash hscheme hslash hcolon hsl
    have hdata : (scheme ++ host ++ slash).data
        = scheme.data ++ host.data ++ slash.data := by
      rw [string_data_append, string_data_append]
    have hslashd : slash.data = [] ∨ slash.data = ['/'] := by
      rcases hslash with rfl | rfl
      · exact Or.inl rfl
      · exact Or.inr rfl
    unfold normalizeShopDomain strLower
    rw [String.ext_iff]
    show normalizeShopDomainList (scheme ++ host ++ slash).data
        = host.data.map Char.toLower
    rw [hdata]
    rcases hscheme with rfl | rfl | rfl
    · show normalizeShopDomainList ([] ++ host.data ++ slash.data) = _
      rw [List.nil_append]
      exact normList_bare hcolon hsl hslashd
    · exact normList_http hsl hslashd
    · exact normList_https hsl hslashd
  refine ⟨main, ?_⟩
  intro sA hA slA sB hB slB h1 h2 h3 h4 h5 h6 h7 h8 heq
  rw [main sA hA slA h1 h2 h3 h4, main sB hB slB h5 h6 h7 h8, heq]

/-- Witness for C7's amended theorem at concrete references. -/
theorem normalizeShopDomain_canonicalizes_witness :
    normalizeShopDomain ("https://" ++ "Example.com" ++ "/") = strLower "Example.com"
    ∧ normalizeShopDomain ("http://" ++ "EXAMPLE.com" ++ "")
      = normalizeShopDomain ("" ++ "example.COM" ++ "/") :=
  ⟨normalizeShopDomain_canonicalizes.1 "https://" "Example.com" "/"
     (Or.inr (Or.inr rfl)) (Or.inr rfl) (by decide) (by decide),
   normalizeShopDomain_canonicalizes.2 "http://" "EXAMPLE.com" "" "" "example.COM" "/"
     (Or.inr (Or.inl rfl)) (Or.inl rfl) (by decide) (by decide)
     (Or.inl rfl) (Or.inr rfl) (by decide) (by decide) (by decide)⟩

/-- Claim C10: for every credential store, clock, input and remote
behavior, the legacy status implementation and the refactored one (which
delegates to `verifyShopSession`) produce the same response — status,
error message and processing value — and the same outbound trace, in
every branch. -/
theorem getThemeStatus_legacy_refines_refactored :
    ∀ (db : SessionDb) (now : Int) (themeId shop : String)
      (remote : FetchOutcome StatusGraphQLResponse),
      getThemeStatusLegacy db now themeId shop remote
        = getThemeStatus db now themeId shop remote := by
  intro db now themeId shop remote
  unfold getThemeStatusLegacy getThemeStatus verifyShopSession
  cases hdb : db (normalizeShopDomain shop) with
  | none => simp [hdb]
  | some session =>
    cases hexp : sessionExpired session now with
    | true => simp [hdb, hexp]
    | false => simp [hdb, hexp]

/-- Claim C4: when the looked-up offline session has an `expires`
timestamp strictly in the past, every operation — create, delete, update
files, status (both implementations), upload — answers 401 with
"Session expired. Please reinstall the app." and its outbound trace holds
only the database lookup: no network call to the platform is issued. -/
theorem expired_session_blocks_all_operations
    (db : SessionDb) (now : Int) (shop : String) (sess : Session) (t : Int)
    (hdb : db (normalizeShopDomain shop) = some sess)
    (hexp : sess.expires = some t) (ht : t < now) :
    (∀ source name remote,
       createTheme db now shop source name remote =
         (⟨401, ⟨none, none, some "Session expired. Please reinstall the app."⟩⟩,
          [.dbLookup (normalizeShopDomain shop)]))
    ∧ (∀ themeId remote,
       deleteTheme db now shop themeId remote =
         (⟨401, ⟨none, none, some "Session expired. Please reinstall the app."⟩⟩,
          [.dbLookup (normalizeShopDomain shop)]))
    ∧ (∀ themeId files remote,
       updateThemeFiles db now shop themeId files remote =
         (⟨401, ⟨none, none, some "Session expired. Please reinstall the app."⟩⟩,
          [.dbLookup (normalizeShopDomain shop)]))
    ∧ (∀ themeId remote,
       getThemeStatus db now themeId shop remote =
         (⟨401, ⟨none, some "Session expired. Please reinstall the app."⟩⟩,
          [.dbLookup (normalizeShopDomain shop)]))
    ∧ (∀ themeId remote,
       getThemeStatusLegacy db now themeId shop remote =
         (⟨401, ⟨none, some "Session expired. Please reinstall the app."⟩⟩,
          [.dbLookup (normalizeShopDomain shop)]))
    ∧ (∀ fileData filename mimeType stage bin,
       uploadFile db now shop fileData filename mimeType stage bin =
         (⟨401, ⟨none, some "Session expired. Please reinstall the app."⟩⟩,
          [.dbLookup (normalizeShopDomain shop)])) := by
  have hexpired : sessionExpired sess now = true := by
    unfold sessionExpired
    rw [hexp]
    simpa using ht
  have hv : verifyShopSession db now shop =
      .failure "Session expired. Please reinstall the app." 401 := by
    unfold verifyShopSession
    simp [hdb, hexpired]
  refine ⟨?_, ?_, ?_, ?_, ?_, ?_⟩
  · intro source name remote
    unfold createTheme
    rw [hv]
  · intro themeId remote
    unfold deleteTheme
    rw [hv]
  · intro themeId files remote
    unfold updateThemeFiles
    rw [hv]
  · intro themeId remote
    unfold getThemeStatus
    rw [hv]
  · intro themeId remote
    unfold getThemeStatusLegacy
    simp [hdb, hexpired]
  · intro fileData filename mimeType stage bin
    unfold uploadFile
    rw [hv]

/-- Witness for C4 at a concrete store whose session expired at 5,
observed at time 10, across two of the operations. -/
theorem expired_session_blocks_all_operations_witness :
    createTheme expiredDb 10 "example.myshopify.com" "src" "my theme" (.exn none) =
      (⟨401, ⟨none, none, some "Session expired. Please reinstall the app."⟩⟩,
       [.dbLookup "example.myshopify.com"])
    ∧ uploadFile expiredDb 10 "example.myshopify.com" "QUJD" none none
        (.exn none) (.exn none) =
      (⟨401, ⟨none, some "Session expired. Please reinstall the app."⟩⟩,
       [.dbLookup "example.myshopify.com"]) := by
  have h := expired_session_blocks_all_operations expiredDb 10 "example.myshopify.com"
    ⟨"example.myshopify.com", "token123", some 5⟩ 5 (by decide) rfl (by decide)
  exact ⟨h.1 "src" "my theme" (.exn none),
         h.2.2.2.2.2 "QUJD" none none (.exn none) (.exn none)⟩

/-- Claim C1, counterexample: the upload operation, given an
HTTP-successful staging response with the root field present and a
non-empty `userErrors` list, answers HTTP 500 — not 400 — and its body
carries only an error string (there is no structured `userErrors` field
in the upload response shape at all), because the route throws on
staging user errors and the catch-all maps the thrown message to 500. -/
theorem uploadFile_userErrors_gives_500 :
    (uploadFile testDb 0 "example.myshopify.com" "QUJD" none none
       (.ok ⟨some ⟨some ⟨[], [⟨["file"], "bad"⟩]⟩⟩, none⟩) (.exn none)).1.status ≠ 400
    ∧ (uploadFile testDb 0 "example.myshopify.com" "QUJD" none none
       (.ok ⟨some ⟨some ⟨[], [⟨["file"], "bad"⟩]⟩⟩, none⟩) (.exn none)).1 =
      ⟨500, ⟨none, some ("Failed to create staged upload: "
                         ++ jsonUserErrors [⟨["file"], "bad"⟩])⟩⟩ := by
  refine ⟨?_, ?_⟩ <;> decide

/-- Claim C1, amended: for the create-theme, delete-theme and
update-theme-files operations, an HTTP-successful remote response whose
root field is present and carries a non-empty `userErrors` list yields an
HTTP 400 failure whose body holds that exact list verbatim plus a summary
string obtained by serializing it; the upload operation instead maps a
non-empty staging `userErrors` list to an HTTP 500 failure whose body
holds only the summary string (no structured list), and performs no
binary transfer. -/
theorem userErrors_status_mapping :
    (∀ (db : SessionDb) (now : Int) (shop source name : String)
       (sess : SessionData) (st : Nat) (theme : Option Theme)
       (ues : List UserError) (errs : Option (List GraphQLError)),
       verifyShopSession db now shop = .success sess → ues ≠ [] →
       createTheme db now shop source name
           (.reply true st ⟨some ⟨some ⟨theme, ues⟩⟩, errs⟩) =
         (⟨400, ⟨none, some ues,
                 some ("Failed to create theme: " ++ jsonUserErrors ues)⟩⟩,
          [.dbLookup (normalizeShopDomain shop),
           .gqlCreate (graphqlUrl sess.normalizedShop) sess.accessToken name source]))
    ∧ (∀ (db : SessionDb) (now : Int) (shop themeId : String)
       (sess : SessionData) (st : Nat) (delId : Option String)
       (ues : List UserError) (errs : Option (List GraphQLError)),
       verifyShopSession db now shop = .success sess → ues ≠ [] →
       deleteTheme db now shop themeId
           (.reply true st ⟨some ⟨some ⟨delId, ues⟩⟩, errs⟩) =
         (⟨400, ⟨none, some ues,
                 some ("Failed to delete theme: " ++ jsonUserErrors ues)⟩⟩,
          [.dbLookup (normalizeShopDomain shop),
           .gqlDelete (graphqlUrl sess.normalizedShop) sess.accessToken
             ("gid://shopify/OnlineStoreTheme/" ++ themeId)]))
    ∧ (∀ (db : SessionDb) (now : Int) (shop themeId : String)
       (files : List ThemeFileInput) (sess : SessionData) (st : Nat)
       (upserted : Option (List String)) (ues : List UserError)
       (errs : Option (List GraphQLError)),
       verifyShopSession db now shop = .success sess → ues ≠ [] →
       updateThemeFiles db now shop themeId files
           (.reply true st ⟨some ⟨some ⟨upserted, ues⟩⟩, errs⟩) =
         (⟨400, ⟨none, some ues,
                 some ("Failed to update theme files: " ++ jsonUserErrors ues)⟩⟩,
          [.dbLookup (normalizeShopDomain shop),
           .gqlUpsert (graphqlUrl sess.normalizedShop) sess.accessToken
             ("gid://shopify/OnlineStoreTheme/" ++ themeId)
             (files.map fun file =>
               FileUpsertInput.mk file.filename
                 ⟨if file.encoding == some "base64" then "BASE64" else "TEXT",
                  file.content⟩)]))
    ∧ (∀ (db : SessionDb) (now : Int) (shop fileData : String)
       (filename mimeType : Option String) (sess : SessionData)
       (targets : List StagedTarget) (ues : List UserError) (bin : BinOutcome),
       verifyShopSession db now shop = .success sess → ues ≠ [] →
       uploadFile db now shop fileData filename mimeType
           (.ok ⟨some ⟨some ⟨targets, ues⟩⟩, none⟩) bin =
         (⟨500, ⟨none, some ("Failed to create staged upload: " ++ jsonUserErrors ues)⟩⟩,
          [.dbLookup (normalizeShopDomain shop),
           .gqlStage (graphqlUrl sess.normalizedShop) sess.accessToken
             ⟨finalFilenameOf filename now, mimeTypeOf mimeType,
              toString (base64Decode (stripDataUrl fileData)).length,
              "FILE", "POST"⟩])) := by
  refine ⟨?_, ?_, ?_, ?_⟩
  · intro db now shop source name sess st theme ues errs hv hne
    unfold createTheme
    rw [hv]
    simp [List.length_pos, hne]
  · intro db now shop themeId sess st delId ues errs hv hne
    unfold deleteTheme
    rw [hv]
    simp [List.length_pos, hne]
  · intro db now shop themeId files sess st upserted ues errs hv hne
    unfold updateThemeFiles
    rw [hv]
    simp [List.length_pos, hne]
  · intro db now shop fileData filename mimeType sess targets ues bin hv hne
    unfold uploadFile
    rw [hv]
    simp [List.length_pos, hne]

/-- Witness for C1's amended theorem: a concrete valid store, a
one-element `userErrors` list, for the create and upload branches. -/
theorem userErrors_status_mapping_witness :
    createTheme testDb 0 "example.myshopify.com" "src" "my theme"
        (.reply true 200 ⟨some ⟨some ⟨none, [⟨["name"], "taken"⟩]⟩⟩, none⟩) =
      (⟨400, ⟨none, some [⟨["name"], "taken"⟩],
              some ("Failed to create theme: " ++ jsonUserErrors [⟨["name"], "taken"⟩])⟩⟩,
       [.dbLookup "example.myshopify.com",
        .gqlCreate (graphqlUrl "example.myshopify.com") "token123" "my theme" "src"])
    ∧ uploadFile testDb 0 "example.myshopify.com" "QUJD" none none
        (.ok ⟨some ⟨some ⟨[], [⟨["file"], "too large"⟩]⟩⟩, none⟩) (.exn none) =
      (⟨500, ⟨none, some ("Failed to create staged upload: "
                          ++ jsonUserErrors [⟨["file"], "too large"⟩])⟩⟩,
       [.dbLookup "example.myshopify.com",
        .gqlStage (graphqlUrl "example.myshopify.com") "token123"
          ⟨"theme-0.zip", "application/zip", "3", "FILE", "POST"⟩]) :=
  ⟨userErrors_status_mapping.1 testDb 0 "example.myshopify.com" "src" "my theme"
     ⟨"example.myshopify.com", "token123", "example.myshopify.com"⟩ 200 none
     [⟨["name"], "taken"⟩] none (by decide) (by decide),
   userErrors_status_mapping.2.2.2 testDb 0 "example.myshopify.com" "QUJD" none none
     ⟨"example.myshopify.com", "token123", "example.myshopify.com"⟩ []
     [⟨["file"], "too large"⟩] (.exn none) (by decide) (by decide)⟩

/-- Claim C2, counterexample: with a valid session and an HTTP-successful
remote response whose root `theme` field is absent, the status operation
answers HTTP 200 with `processing = null` and no `error` field at all —
a success response with a null `processing`, and the missing root field
is not reported as an error. -/
theorem getThemeStatus_missing_theme_succeeds :
    (getThemeStatus testDb 0 "7" "example.myshopify.com"
       (.reply true 200 ⟨some ⟨none⟩, none⟩)).1.status = 200
    ∧ (getThemeStatus testDb 0 "7" "example.myshopify.com"
       (.reply true 200 ⟨some ⟨none⟩, none⟩)).1.body.processing = none
    ∧ (getThemeStatus testDb 0 "7" "example.myshopify.com"
       (.reply true 200 ⟨some ⟨none⟩, none⟩)).1.body.error = none := by
  refine ⟨?_, ?_, ?_⟩ <;> decide

/-- Claim C2, amended: whenever a status response carries an error string
its `processing` field is null; but `processing = null` does not imply an
error: an HTTP-successful remote response whose `theme` root field is
absent yields HTTP 200 with `processing = null` and no error string, so
the missing root field is reported as a success, not as an error. -/
theorem processing_null_classification :
    (∀ (db : SessionDb) (now : Int) (themeId shop : String)
       (remote : FetchOutcome StatusGraphQLResponse),
       ((getThemeStatus db now themeId shop remote).1.body.error).isSome = true →
       (getThemeStatus db now themeId shop remote).1.body.processing = none)
    ∧ (∀ (db : SessionDb) (now : Int) (themeId shop : String)
       (sess : SessionData) (st : Nat) (errs : Option (List GraphQLError)),
       verifyShopSession db now shop = .success sess →
       getThemeStatus db now themeId shop (.reply true st ⟨some ⟨none⟩, errs⟩) =
         (⟨200, ⟨none, none⟩⟩,
          [.dbLookup (normalizeShopDomain shop),
           .gqlStatus (graphqlUrl sess.normalizedShop) sess.accessToken
             ("gid://shopify/OnlineStoreTheme/" ++ themeId)])) := by
  constructor
  · intro db now themeId shop remote
    cases hv : verifyShopSession db now shop with
    | failure e st =>
      intro _
      simp [getThemeStatus, hv]
    | success sess =>
      cases remote with
      | exn m =>
        intro _
        simp [getThemeStatus, hv]
      | reply ok st payload =>
        cases ok with
        | false =>
          intro _
          simp [getThemeStatus, hv]
        | true =>
          intro hcontra
          simp [getThemeStatus, hv] at hcontra
  · intro db now themeId shop sess st errs hv
    unfold getThemeStatus
    rw [hv]
    rfl

/-- Witness for C2's amended theorem: a store with no session (error
branch) and a valid store whose remote answer lacks the theme field. -/
theorem processing_null_classification_witness :
    (getThemeStatus emptyDb 0 "7" "missing.myshopify.com" (.exn none)).1.body.processing = none
    ∧ getThemeStatus testDb 0 "7" "example.myshopify.com"
        (.reply true 200 ⟨some ⟨none⟩, some []⟩) =
      (⟨200, ⟨none, none⟩⟩,
       [.dbLookup "example.myshopify.com",
        .gqlStatus (graphqlUrl "example.myshopify.com") "token123"
          "gid://shopify/OnlineStoreTheme/7"]) :=
  ⟨processing_null_classification.1 emptyDb 0 "7" "missing.myshopify.com"
     (.exn none) (by decide),
   processing_null_classification.2 testDb 0 "7" "example.myshopify.com"
     ⟨"example.myshopify.com", "token123", "example.myshopify.com"⟩ 200
     (some []) (by decide)⟩

/-- Claim C3: when the staging mutation succeeds (HTTP ok, no top-level
errors, root field present, empty `userErrors`) but the staged-target
list is empty, the pipeline fails with the message "Failed to get staged
upload target", posts no binary transfer to any upload URL, and that
message differs from the one produced by any non-empty `userErrors`
staging failure. -/
theorem empty_staged_targets_distinct_failure
    (db : SessionDb) (now : Int) (shop fileData : String)
    (filename mimeType : Option String) (sess : SessionData) (bin : BinOutcome)
    (hv : verifyShopSession db now shop = .success sess) :
    (uploadFile db now shop fileData filename mimeType
       (.ok ⟨some ⟨some ⟨[], []⟩⟩, none⟩) bin).1 =
      ⟨500, ⟨none, some "Failed to get staged upload target"⟩⟩
    ∧ (∀ u form, Event.binaryPost u form ∉
        (uploadFile db now shop fileData filename mimeType
          (.ok ⟨some ⟨some ⟨[], []⟩⟩, none⟩) bin).2)
    ∧ (∀ ues : List UserError, ues ≠ [] →
        (uploadFile db now shop fileData filename mimeType
           (.ok ⟨some ⟨some ⟨[], ues⟩⟩, none⟩) bin).1.body.error =
          some ("Failed to create staged upload: " ++ jsonUserErrors ues)
        ∧ (uploadFile db now shop fileData filename mimeType
            (.ok ⟨some ⟨some ⟨[], []⟩⟩, none⟩) bin).1.body.error ≠
          (uploadFile db now shop fileData filename mimeType
            (.ok ⟨some ⟨some ⟨[], ues⟩⟩, none⟩) bin).1.body.error) := by
  refine ⟨?_, ?_, ?_⟩
  · unfold uploadFile
    rw [hv]
    rfl
  · intro u form
    unfold uploadFile
    rw [hv]
    simp
  · intro ues hne
    have hue : (uploadFile db now shop fileData filename mimeType
        (.ok ⟨some ⟨some ⟨[], ues⟩⟩, none⟩) bin).1.body.error =
        some ("Failed to create staged upload: " ++ jsonUserErrors ues) := by
      unfold uploadFile
      rw [hv]
      simp [List.length_pos, hne]
    refine ⟨hue, ?_⟩
    have hempty : (uploadFile db now shop fileData filename mimeType
        (.ok ⟨some ⟨some ⟨[], []⟩⟩, none⟩) bin).1.body.error =
        some "Failed to get staged upload target" := by
      unfold uploadFile
      rw [hv]
      rfl
    rw [hempty, hue]
    intro h
    exact stagedTargetMsgNe (jsonUserErrors ues) (Option.some.inj h)

/-- Witness for C3 at a concrete valid store. -/
theorem empty_staged_targets_distinct_failure_witness :
    (uploadFile testDb 0 "example.myshopify.com" "QUJD" none none
       (.ok ⟨some ⟨some ⟨[], []⟩⟩, none⟩) (.exn none)).1 =
      ⟨500, ⟨none, some "Failed to get staged upload target"⟩⟩
    ∧ (uploadFile testDb 0 "example.myshopify.com" "QUJD" none none
        (.ok ⟨some ⟨some ⟨[], []⟩⟩, none⟩) (.exn none)).1.body.error ≠
      (uploadFile testDb 0 "example.myshopify.com" "QUJD" none none
        (.ok ⟨some ⟨some ⟨[], [⟨["file"], "bad"⟩]⟩⟩, none⟩) (.exn none)).1.body.error := by
  have h := empty_staged_targets_distinct_failure testDb 0 "example.myshopify.com"
    "QUJD" none none ⟨"example.myshopify.com", "token123", "example.myshopify.com"⟩
    (.exn none) (by decide)
  exact ⟨h.1, (h.2.2 [⟨["file"], "bad"⟩] (by decide)).2⟩

/-- Claim C5: whenever the staging response carries at least one staged
target, the multipart form posted to the target's upload URL consists of
exactly the target's parameters, in their given order, followed by the
binary payload as the final field under the fixed field name `"file"`
(with the request's filename and mime type attached to the blob). -/
theorem staged_upload_form_fields_order
    (db : SessionDb) (now : Int) (shop fileData : String)
    (filename mimeType : Option String) (sess : SessionData)
    (t : StagedTarget) (ts : List StagedTarget) (bin : BinOutcome)
    (hv : verifyShopSession db now shop = .success sess) :
    (uploadFile db now shop fileData filename mimeType
       (.ok ⟨some ⟨some ⟨t :: ts, []⟩⟩, none⟩) bin).2 =
      [.dbLookup (normalizeShopDomain shop),
       .gqlStage (graphqlUrl sess.normalizedShop) sess.accessToken
         ⟨finalFilenameOf filename now, mimeTypeOf mimeType,
          toString (base64Decode (stripDataUrl fileData)).length, "FILE", "POST"⟩,
       .binaryPost t.url
         (t.parameters.map (fun p => FormField.param p.name p.value) ++
          [FormField.filePart "file" (base64Decode (stripDataUrl fileData))
            (finalFilenameOf filename now) (mimeTypeOf mimeType)])] := by
  unfold uploadFile
  rw [hv]
  cases bin with
  | exn m => rfl
  | reply ok st stText text => cases ok with
    | false => rfl
    | true => rfl

/-- Witness for C5 at a concrete run. -/
theorem staged_upload_form_fields_order_witness :
    (uploadFile testDb 0 "example.myshopify.com" "QUJD" (some "a.zip") none
       (.ok ⟨some ⟨some ⟨[testTarget], []⟩⟩, none⟩) (.exn none)).2 =
      [.dbLookup "example.myshopify.com",
       .gqlStage (graphqlUrl "example.myshopify.com") "token123"
         ⟨"a.zip", "application/zip", "3", "FILE", "POST"⟩,
       .binaryPost "https://upload.example/bucket"
         [.param "key" "tmp/1", .param "policy" "abc",
          .filePart "file" [65, 66, 67] "a.zip" "application/zip"]] :=
  staged_upload_form_fields_order testDb 0 "example.myshopify.com" "QUJD"
    (some "a.zip") none ⟨"example.myshopify.com", "token123", "example.myshopify.com"⟩
    testTarget [] (.exn none) (by decide)

/-- Claim C6: with a resolving credential, a staging response carrying a
target, and a successful binary POST, the pipeline answers HTTP 200 with
the staged target's `resourceUrl`, and its trace holds exactly one
database lookup, one staging call and one binary transfer — neither
network step is retried. -/
theorem upload_pipeline_success_end_to_end
    (db : SessionDb) (now : Int) (shop fileData : String)
    (filename mimeType : Option String) (sess : SessionData)
    (t : StagedTarget) (ts : List StagedTarget)
    (st : Nat) (stText text : String)
    (hv : verifyShopSession db now shop = .success sess) :
    uploadFile db now shop fileData filename mimeType
       (.ok ⟨some ⟨some ⟨t :: ts, []⟩⟩, none⟩) (.reply true st stText text) =
      (⟨200, ⟨some t.resourceUrl, none⟩⟩,
       [.dbLookup (normalizeShopDomain shop),
        .gqlStage (graphqlUrl sess.normalizedShop) sess.accessToken
          ⟨finalFilenameOf filename now, mimeTypeOf mimeType,
           toString (base64Decode (stripDataUrl fileData)).length, "FILE", "POST"⟩,
        .binaryPost t.url
          (t.parameters.map (fun p => FormField.param p.name p.value) ++
           [FormField.filePart "file" (base64Decode (stripDataUrl fileData))
             (finalFilenameOf filename now) (mimeTypeOf mimeType)])]) := by
  unfold uploadFile
  rw [hv]
  rfl

/-- Witness for C6 at a concrete run. -/
theorem upload_pipeline_success_end_to_end_witness :
    uploadFile testDb 0 "example.myshopify.com" "QUJD" (some "a.zip") none
       (.ok ⟨some ⟨some ⟨[testTarget], []⟩⟩, none⟩) (.reply true 201 "Created" "") =
      (⟨200, ⟨some "https://cdn.example/res-1", none⟩⟩,
       [.dbLookup "example.myshopify.com",
        .gqlStage (graphqlUrl "example.myshopify.com") "token123"
          ⟨"a.zip", "application/zip", "3", "FILE", "POST"⟩,
        .binaryPost "https://upload.example/bucket"
          [.param "key" "tmp/1", .param "policy" "abc",
           .filePart "file" [65, 66, 67] "a.zip" "application/zip"]]) :=
  upload_pipeline_success_end_to_end testDb 0 "example.myshopify.com" "QUJD"
    (some "a.zip") none ⟨"example.myshopify.com", "token123", "example.myshopify.com"⟩
    testTarget [] 201 "Created" "" (by decide)

/-- Claim C8: in every run of the delete, update-files and status
operations that reaches the remote call, the `id`/`themeId` GraphQL
variable is exactly the string `gid://shopify/OnlineStoreTheme/` followed
by the caller's theme id, with no other transformation. -/
theorem theme_gid_wire_format
    (db : SessionDb) (now : Int) (shop themeId : String) (sess : SessionData)
    (hv : verifyShopSession db now shop = .success sess) :
    (∀ remote, (deleteTheme db now shop themeId remote).2 =
      [.dbLookup (normalizeShopDomain shop),
       .gqlDelete (graphqlUrl sess.normalizedShop) sess.accessToken
         ("gid://shopify/OnlineStoreTheme/" ++ themeId)])
    ∧ (∀ files remote, (updateThemeFiles db now shop themeId files remote).2 =
      [.dbLookup (normalizeShopDomain shop),
       .gqlUpsert (graphqlUrl sess.normalizedShop) sess.accessToken
         ("gid://shopify/OnlineStoreTheme/" ++ themeId)
         (files.map fun file =>
           FileUpsertInput.mk file.filename
             ⟨if file.encoding == some "base64" then "BASE64" else "TEXT",
              file.content⟩)])
    ∧ (∀ remote, (getThemeStatus db now themeId shop remote).2 =
      [.dbLookup (normalizeShopDomain shop),
       .gqlStatus (graphqlUrl sess.normalizedShop) sess.accessToken
         ("gid://shopify/OnlineStoreTheme/" ++ themeId)]) := by
  refine ⟨?_, ?_, ?_⟩
  · intro remote
    unfold deleteTheme
    rw [hv]
    cases remote with
    | exn m => rfl
    | reply ok st payload =>
      cases ok with
      | false => rfl
      | true =>
        cases htd : payload.data.bind (·.themeDelete) with
        | none => simp [htd]
        | some td =>
          simp only [htd, Bool.not_true, Bool.false_eq_true, if_false]
          split <;> rfl
  · intro files remote
    unfold updateThemeFiles
    rw [hv]
    cases remote with
    | exn m => rfl
    | reply ok st payload =>
      cases ok with
      | false => rfl
      | true =>
        cases htd : payload.data.bind (·.themeFilesUpsert) with
        | none => simp [htd]
        | some tfu =>
          simp only [htd, Bool.not_true, Bool.false_eq_true, if_false]
          split <;> rfl
  · intro remote
    unfold getThemeStatus
    rw [hv]
    cases remote with
    | exn m => rfl
    | reply ok st payload =>
      cases ok with
      | false => rfl
      | true => rfl

/-- Witness for C8 at a concrete valid store and theme id 42. -/
theorem theme_gid_wire_format_witness :
    (deleteTheme testDb 0 "example.myshopify.com" "42" (.exn none)).2 =
      [.dbLookup "example.myshopify.com",
       .gqlDelete (graphqlUrl "example.myshopify.com") "token123"
         "gid://shopify/OnlineStoreTheme/42"]
    ∧ (getThemeStatus testDb 0 "42" "example.myshopify.com" (.exn none)).2 =
      [.dbLookup "example.myshopify.com",
       .gqlStatus (graphqlUrl "example.myshopify.com") "token123"
         "gid://shopify/OnlineStoreTheme/42"] := by
  have h := theme_gid_wire_format testDb 0 "example.myshopify.com" "42"
    ⟨"example.myshopify.com", "token123", "example.myshopify.com"⟩ (by decide)
  exact ⟨h.1 (.exn none), h.2.2 (.exn none)⟩

/-- Claim C9: whenever the update request's `files` value is not a
non-empty array, or some entry lacks a non-empty `filename` or has
undefined `content`, the action answers HTTP 400 with an input-error
message in the body, and its trace is empty: it performs neither the
credential lookup nor any outbound network call. -/
theorem upsert_input_validation_no_network
    (db : SessionDb) (now : Int) (shop themeId : String) (files : FilesValue)
    (remote : FetchOutcome UpsertGraphQLResponse)
    (h : filesInvalid files) :
    (themeUpdateAction db now shop themeId files remote).1.status = 400
    ∧ ((themeUpdateAction db now shop themeId files remote).1.body.error).isSome = true
    ∧ (themeUpdateAction db now shop themeId files remote).2 = [] := by
  cases files with
  | missing =>
    unfold themeUpdateAction
    simp [filesFalsy]
  | truthyNonArray =>
    unfold themeUpdateAction
    cases hc : (shop == "" || themeId == "" || filesFalsy FilesValue.truthyNonArray) <;>
      simp [hc]
  | arr fs =>
    rcases h with rfl | ⟨f, hf, hbad⟩
    · unfold themeUpdateAction
      cases hc : (shop == "" || themeId == "" || filesFalsy (FilesValue.arr [])) <;>
        simp [hc]
    · have hany : fs.any fileInputBad = true := by
        refine List.any_eq_true.mpr ⟨f, hf, ?_⟩
        unfold fileInputBad
        rcases hbad with hb | hb
        · simp [hb]
        · simp [hb]
      cases fs with
      | nil => cases hf
      | cons f0 fs0 =>
        unfold themeUpdateAction
        cases hc : (shop == "" || themeId == "" || filesFalsy (FilesValue.arr (f0 :: fs0))) <;>
          simp [hc, hany]

/-- Witness for C9 on an empty files array. -/
theorem upsert_input_validation_no_network_witness :
    (themeUpdateAction testDb 0 "example.myshopify.com" "42" (.arr [])
       (.exn none)).1.status = 400
    ∧ ((themeUpdateAction testDb 0 "example.myshopify.com" "42" (.arr [])
       (.exn none)).1.body.error).isSome = true
    ∧ (themeUpdateAction testDb 0 "example.myshopify.com" "42" (.arr [])
       (.exn none)).2 = [] :=
  upsert_input_validation_no_network testDb 0 "example.myshopify.com" "42"
    (.arr []) (.exn none) (Or.inl rfl)

end TyzAccess
